import Mathlib

/-
Verification development for the SwissJudgementPrediction repository.

The repository has two source files:
  * HierarchicalBert.py — a hierarchical document encoder: a pre-trained
    token-level encoder is run over the segments of a long document, the
    per-segment summary vectors (token position 0) are combined by a second,
    segment-level encoder (a BiLSTM or a small transformer stack) into one
    document representation.
  * generate_experiments.py — a utility that enumerates (model, type, lang)
    experiment rows into a CSV table.

This file shallowly embeds both: tensors become functions over `Fin`-indexed
shapes, torch's row-major `view` becomes explicit index arithmetic, float
arithmetic is modelled over `ℝ`, the externally supplied sub-modules
(base encoder, nn.LSTM, nn.Linear, nn.TransformerEncoder) become opaque
function parameters, and Python failures (assert, UnboundLocalError,
RuntimeError from `view`) become `Except` values.
-/

namespace SJP

/-! ## Row-major flattening and reshaping (torch `.view`)

`input_ids.contiguous().view(-1, input_ids.size(-1))` on a rank-3 tensor of
shape (D, S, T) merges the first two axes row-major: flat row r corresponds
to document r / S, segment r % S (HierarchicalBert.py line 82). -/

/-- Row-major flattening of a rank-3 (D, S, T) tensor to rank-2 (D*S, T),
as performed by `view(-1, size(-1))` in HierarchicalBert.forward lines 82-84. -/
def flatten3 {α : Type} {D S T : ℕ} (x : Fin D → Fin S → Fin T → α)
    (r : Fin (D * S)) (t : Fin T) : α :=
  have hDS : r.val < D * S := r.isLt
  have hpos : 0 < D * S := Nat.lt_of_le_of_lt (Nat.zero_le _) hDS
  have hS : 0 < S := by
    rcases Nat.eq_zero_or_pos S with h | h
    · rw [h, Nat.mul_zero] at hpos; exact absurd hpos (Nat.lt_irrefl 0)
    · exact h
  x ⟨r.val / S, Nat.div_lt_of_lt_mul (by rw [Nat.mul_comm S D]; exact hDS)⟩
    ⟨r.val % S, Nat.mod_lt _ hS⟩ t

/-- Row-major reshape of a rank-3 (D*S, T, H) tensor back to rank-4
(D, S, T, H), as performed by `view(input_ids.size(0), max_segments,
max_segment_length, hidden_size)` in HierarchicalBert.forward lines 92-93:
the (d, s) slot reads flat row d*S + s. -/
def unflatten4 {α : Type} {D S T H : ℕ} (y : Fin (D * S) → Fin T → Fin H → α)
    (d : Fin D) (s : Fin S) (t : Fin T) (h : Fin H) : α :=
  y ⟨d.val * S + s.val, by
      have hs := s.isLt
      have hd : d.val + 1 ≤ D := d.isLt
      calc d.val * S + s.val < d.val * S + S := by omega
        _ = (d.val + 1) * S := by rw [Nat.succ_mul]
        _ ≤ D * S := Nat.mul_le_mul_right S hd⟩ t h

/-! ## The sinusoidal positional table (HierarchicalBert.py lines 19-27)

Float arithmetic (numpy float64, cast to torch float32) is modelled over `ℝ`. -/

/-- The raw table built by the list comprehension at lines 21-23:
entry (pos, i) is pos / 10000^(2*i/dim) for pos ≠ 0, and row 0 is zero. -/
noncomputable def position_enc (num_embeddings embedding_dim : ℕ) (pos i : ℕ) : ℝ :=
  if pos ≠ 0 then (pos : ℝ) / (10000 : ℝ) ^ (2 * (i : ℝ) / (embedding_dim : ℝ))
  else 0

/-- `sinusoidal_init` (lines 19-27): the raw table with sin applied to even
columns of rows ≥ 1 (line 25) and cos applied to odd columns of rows ≥ 1
(line 26); row 0 is left as the zero row. -/
noncomputable def sinusoidal_init (num_embeddings embedding_dim : ℕ) (pos i : ℕ) : ℝ :=
  if 1 ≤ pos ∧ i % 2 = 0 then Real.sin (position_enc num_embeddings embedding_dim pos i)
  else if 1 ≤ pos ∧ i % 2 = 1 then Real.cos (position_enc num_embeddings embedding_dim pos i)
  else position_enc num_embeddings embedding_dim pos i

/-! ## Segment validity mask and segment positions (lines 114-116) -/

/-- `seg_mask = (torch.sum(input_ids, 2) != 0).to(input_ids.dtype)`
(line 114), for one document: 1 if the segment's token-id sum is non-zero,
0 otherwise. -/
def seg_mask {S T : ℕ} (input_ids : Fin S → Fin T → ℤ) (s : Fin S) : ℕ :=
  if (∑ t, input_ids s t) ≠ 0 then 1 else 0

/-- `seg_positions = torch.arange(1, max_segments + 1) * seg_mask`
(line 116), for one document: segment s (0-based) gets index (s+1) times
its mask bit. -/
def seg_positions {S T : ℕ} (input_ids : Fin S → Fin T → ℤ) (s : Fin S) : ℕ :=
  (s.val + 1) * seg_mask input_ids s

/-! ## Experiment grid (generate_experiments.py) -/

/-- One row of the experiment table (generate_experiments.py line 33). -/
structure Experiment where
  model_name : String
  type : String
  lang : String
  status : String

/-- The `model_names` dict (lines 18-24): per-language list of base models. -/
def model_names (lang : String) : List String :=
  if lang = "de" then ["xlm-roberta-base", "deepset/gbert-base"]
  else if lang = "fr" then ["xlm-roberta-base", "camembert/camembert-base-ccnet"]
  else if lang = "it" then ["xlm-roberta-base", "Musixmatch/umberto-commoncrawl-cased-v1"]
  else if lang = "all" then ["xlm-roberta-base", "bert-base-multilingual-cased"]
  else []

/-- `types = ['standard', 'hierarchical', 'long']` (line 25). -/
def types : List String := ["standard", "hierarchical", "long"]

/-- `languages = ['de', 'fr', 'it', 'all']` (line 26). -/
def languages : List String := ["de", "fr", "it", "all"]

/-- The triple loop of lines 29-34: for each language, for each type, for
each model name of that language, one row with empty status. -/
def train_experiments : List Experiment :=
  languages.flatMap fun lang =>
    types.flatMap fun ty =>
      (model_names lang).map fun mn => ⟨mn, ty, lang, ""⟩

/-- The set of distinct base-model identifiers appearing anywhere in the
`model_names` dict. -/
def all_model_names : List String := (languages.flatMap model_names).dedup

/-- Column order of the persisted CSV: pandas DataFrame columns follow the
dict-key insertion order of line 33. -/
def csv_columns : List String := ["model_name", "type", "lang", "status"]

/-- Number of produced rows matching a given (model_name, type, lang) cell. -/
def countRows (mn ty lg : String) : ℕ :=
  (train_experiments.filter fun e =>
    decide (e.model_name = mn ∧ e.type = ty ∧ e.lang = lg)).length

/-! ## The HierarchicalBert module (HierarchicalBert.py lines 10-126)

Shapes are carried by the `Fin` indices: the structure index S plays
`max_segments`, T plays `max_segment_length`, H plays
`encoder.config.hidden_size`; the value model is for inputs that match the
configured shapes (the mismatching case is modelled separately below). -/

/-- The configuration attributes read off the externally supplied base
encoder (`encoder.config`, lines 36 and 42 and 59-64). -/
structure EncoderConfig where
  model_type : String
  hidden_size : ℕ
  num_attention_heads : ℕ
  intermediate_size : ℕ
  hidden_act : String
  hidden_dropout_prob : ℝ
  layer_norm_eps : ℝ

/-- `supported_models = ['bert', 'camembert', 'xlm-roberta', 'roberta']`
(line 35). -/
def supported_models : List String := ["bert", "camembert", "xlm-roberta", "roberta"]

/-- Models torch.nn.Embedding: a lookup table of `num_embeddings` rows of
width H. Constructing one registers its weight as a trainable Parameter,
so `requires_grad` is true; the `_weight` argument only supplies the
initial value, and `padding_idx` pins the gradient of that single row to
zero without freezing the table. -/
structure EmbeddingModule (H : ℕ) where
  num_embeddings : ℕ
  padding_idx : Option ℕ
  weight : ℕ → Fin H → ℝ
  requires_grad : Bool

/-- `nn.Embedding(num, H, padding_idx=p, _weight=w)` (lines 55-56). -/
def nnEmbedding (num : ℕ) {H : ℕ} (p : Option ℕ) (w : ℕ → Fin H → ℝ) :
    EmbeddingModule H :=
  ⟨num, p, w, true⟩

/-- Models torch.nn.Linear(inF, outF): an affine map given by a weight
matrix and a bias vector. -/
structure LinearModule (inF outF : ℕ) where
  weight : Fin outF → Fin inF → ℝ
  bias : Fin outF → ℝ

/-- Application of an nn.Linear: y = W x + b. -/
noncomputable def LinearModule.apply {inF outF : ℕ} (L : LinearModule inF outF)
    (x : Fin inF → ℝ) (o : Fin outF) : ℝ :=
  (∑ j, L.weight o j * x j) + L.bias o

/-- The segment-wise encoder sub-module (`self.seg_encoder`): either the
bidirectional single-layer nn.LSTM of lines 49-50 (mapping the (S, H)
segment-summary sequence to an (S, 2*H) output whose first H components at
each timestep are the forward-direction hidden state and whose last H
components are the backward-direction hidden state, torch's convention for
`bidirectional=True`), or the 2-layer nn.TransformerEncoder of lines 59-65
(mapping (S, H) to (S, H)). Both act per batch element, so they are
modelled per document. -/
inductive SegModule (S H : ℕ) where
  | lstm (f : (Fin S → Fin H → ℝ) → Fin S → Fin (2 * H) → ℝ)
  | transformer (g : (Fin S → Fin H → ℝ) → Fin S → Fin H → ℝ)

/-- The HierarchicalBert module state after `__init__` (lines 33-65).
The base encoder is modelled as a per-flat-row function from the three
token-level input rows to per-token hidden states. Attributes that Python
only sets inside one of the two `if` branches are `Option` fields, `none`
when the branch did not run. -/
structure HierarchicalBert (S T H : ℕ) where
  encoder_cfg : EncoderConfig
  encoder : (Fin T → ℤ) → (Fin T → ℤ) → (Fin T → ℤ) → Fin T → Fin H → ℝ
  seg_encoder_type : String
  seg_encoder : Option (SegModule S H)
  down_project : Option (LinearModule (2 * H) H)
  seg_pos_embeddings : Option (EmbeddingModule H)

/-- The `SimpleOutput` dataclass (lines 10-16), at output shape (D, H). -/
structure SimpleOutput (D H : ℕ) where
  last_hidden_state : Fin D → Fin H → ℝ
  past_key_values : Option (List (Fin D → Fin H → ℝ))
  hidden_states : Option (Fin D → Fin H → ℝ)
  attentions : Option (List (Fin D → Fin H → ℝ))
  cross_attentions : Option (List (Fin D → Fin H → ℝ))

/-- Python runtime failures that the forward pass can produce. -/
inductive PyError where
  | unboundLocal (name : String)
  | typeError (msg : String)
deriving DecidableEq

/-- Observable events of a forward call; `encoderInvoked rows` records the
single call to the base encoder over the flattened batch of `rows` =
documents * segments rows (line 87). -/
inductive FwdEvent where
  | encoderInvoked (rows : ℕ)
deriving DecidableEq

/-- Lines 82-96 of `forward`: flatten the three rank-3 inputs row-major
(lines 82-84), run the base encoder over the flat batch (lines 87-89),
reshape back to rank 4 (lines 92-93) and take the hidden state at token
position 0 of every segment (line 96), yielding the (D, S, H) tensor of
segment summaries. -/
noncomputable def clsSummaries (D S T H : ℕ) (hT : 0 < T)
    (encoder : (Fin T → ℤ) → (Fin T → ℤ) → (Fin T → ℤ) → Fin T → Fin H → ℝ)
    (input_ids attention_mask token_type_ids : Fin D → Fin S → Fin T → ℤ)
    (d : Fin D) (s : Fin S) (h : Fin H) : ℝ :=
  unflatten4
    (fun r => encoder (flatten3 input_ids r) (flatten3 attention_mask r)
      (flatten3 token_type_ids r))
    d s ⟨0, hT⟩ h

/-- Lines 98-109 of `forward` (the `'lstm'` branch): run the BiLSTM over
the segment summaries, `view` its (S, 2*H) output as (S, 2, H), concatenate
slot (S-1, 0) with slot (0, 1) into a 2*H vector and down-project it. -/
noncomputable def lstmBranch (D S H : ℕ) (hS : 0 < S)
    (f : (Fin S → Fin H → ℝ) → Fin S → Fin (2 * H) → ℝ)
    (dp : LinearModule (2 * H) H)
    (encoder_outputs : Fin D → Fin S → Fin H → ℝ) (d : Fin D) (o : Fin H) : ℝ :=
  let lstms : Fin D → Fin S → Fin (2 * H) → ℝ := fun dd => f (encoder_outputs dd)
  let reshaped_lstms : Fin D → Fin S → Fin 2 → Fin H → ℝ := fun dd s j h =>
    lstms dd s ⟨j.val * H + h.val, by
      have hh := h.isLt
      have hj : j.val + 1 ≤ 2 := j.isLt
      calc j.val * H + h.val < j.val * H + H := by omega
        _ = (j.val + 1) * H := by rw [Nat.succ_mul]
        _ ≤ 2 * H := Nat.mul_le_mul_right H hj⟩
  let seg_encoder_outputs : Fin D → Fin (2 * H) → ℝ := fun dd c =>
    if hc : c.val < H then
      reshaped_lstms dd ⟨S - 1, by omega⟩ ⟨0, by omega⟩ ⟨c.val, hc⟩
    else
      reshaped_lstms dd ⟨0, hS⟩ ⟨1, by omega⟩ ⟨c.val - H, by
        have := c.isLt; omega⟩
  dp.apply (seg_encoder_outputs d) o

/-- Lines 111-124 of `forward` (the `'transformer'` branch): add the
positional-embedding row selected by `seg_positions` to each segment
summary (lines 114-118), run the segment-wise transformer (line 121), and
take the element-wise maximum over the segments axis (line 124). -/
noncomputable def transformerBranch (D S T H : ℕ) (hS : 0 < S)
    (g : (Fin S → Fin H → ℝ) → Fin S → Fin H → ℝ) (emb : EmbeddingModule H)
    (input_ids : Fin D → Fin S → Fin T → ℤ)
    (encoder_outputs : Fin D → Fin S → Fin H → ℝ) (d : Fin D) (h : Fin H) : ℝ :=
  let withPos : Fin D → Fin S → Fin H → ℝ := fun dd s hh =>
    encoder_outputs dd s hh + emb.weight (seg_positions (input_ids dd) s) hh
  let seg_encoder_outputs : Fin D → Fin S → Fin H → ℝ := fun dd => g (withPos dd)
  Finset.sup' Finset.univ ⟨⟨0, hS⟩, Finset.mem_univ _⟩
    (fun s => seg_encoder_outputs d s h)

/-- `HierarchicalBert.__init__` (lines 33-65). The assert of line 36 is
the `Except.error` case. `lstm_prim`, `down_project_prim` and
`transformer_prim` stand for the freshly constructed nn.LSTM, nn.Linear
and nn.TransformerEncoder sub-modules (their initial weights come from the
framework's RNG, so they are parameters of the model); the two independent
`if` statements of lines 47-65 cannot both fire, so they are rendered as
conditionals. The transformer branch seeds `seg_pos_embeddings` from
`sinusoidal_init(max_segments + 1, hidden_size)` with `padding_idx=0`
(lines 54-56). -/
noncomputable def hierarchicalBertInit (S T H : ℕ) (encoder_cfg : EncoderConfig)
    (encoder : (Fin T → ℤ) → (Fin T → ℤ) → (Fin T → ℤ) → Fin T → Fin H → ℝ)
    (lstm_prim : (Fin S → Fin H → ℝ) → Fin S → Fin (2 * H) → ℝ)
    (down_project_prim : LinearModule (2 * H) H)
    (transformer_prim : (Fin S → Fin H → ℝ) → Fin S → Fin H → ℝ)
    (seg_encoder_type : String) : Except String (HierarchicalBert S T H) :=
  if encoder_cfg.model_type ∈ supported_models then
    Except.ok
      ⟨encoder_cfg, encoder, seg_encoder_type,
        (if seg_encoder_type = "lstm" then some (SegModule.lstm lstm_prim)
         else if seg_encoder_type = "transformer" then
           some (SegModule.transformer transformer_prim)
         else none),
        (if seg_encoder_type = "lstm" then some down_project_prim else none),
        (if seg_encoder_type = "transformer" then
           some (nnEmbedding (S + 1) (some 0)
             (fun p h => sinusoidal_init (S + 1) H p h.val))
         else none)⟩
  else Except.error "AssertionError"

/-- `HierarchicalBert.forward` (lines 67-126) on a batch of D documents
whose inputs match the configured shapes. The result triple carries the
module state after the call (forward assigns no attribute, so it is
returned unchanged), the events observed during the call, and the returned
`SimpleOutput` or the Python error the call raises. When
`seg_encoder_type` names neither branch, the local `outputs` is never
assigned and line 126 raises UnboundLocalError — after the base encoder
has already run. -/
noncomputable def HierarchicalBert.forward (S T H : ℕ) (m : HierarchicalBert S T H)
    (D : ℕ) (hS : 0 < S) (hT : 0 < T)
    (input_ids attention_mask token_type_ids : Fin D → Fin S → Fin T → ℤ) :
    HierarchicalBert S T H × List FwdEvent × Except PyError (SimpleOutput D H) :=
  let encoder_outputs : Fin D → Fin S → Fin H → ℝ :=
    clsSummaries D S T H hT m.encoder input_ids attention_mask token_type_ids
  let events : List FwdEvent := [FwdEvent.encoderInvoked (D * S)]
  let res : Except PyError (SimpleOutput D H) :=
    if m.seg_encoder_type = "lstm" then
      match m.seg_encoder, m.down_project with
      | some (SegModule.lstm f), some dp =>
        let outputs := lstmBranch D S H hS f dp encoder_outputs
        Except.ok ⟨outputs, none, some outputs, none, none⟩
      | _, _ => Except.error (PyError.typeError "seg_encoder")
    else if m.seg_encoder_type = "transformer" then
      match m.seg_encoder, m.seg_pos_embeddings with
      | some (SegModule.transformer g), some emb =>
        let outputs := transformerBranch D S T H hS g emb input_ids encoder_outputs
        Except.ok ⟨outputs, none, some outputs, none, none⟩
      | _, _ => Except.error (PyError.typeError "seg_encoder")
    else
      Except.error (PyError.unboundLocal "outputs")
  (m, events, res)

/-! ## Shape-level model of the reshape step (for mismatching inputs)

`torch.Tensor.view` with fully explicit target sizes succeeds exactly when
the element count is unchanged (the tensors here are `contiguous()`), and
otherwise raises a RuntimeError. -/

/-- `view` with explicit target sizes: ok iff the element count matches. -/
def viewCheck (numel : ℕ) (target : List ℕ) : Except String Unit :=
  if numel = target.foldr (fun a b => a * b) 1 then Except.ok ()
  else Except.error "RuntimeError: shape is invalid for input size"

/-- The reshape-back step of lines 92-93 on an input batch of actual shape
(D, S, T): the base-encoder output has D*S*T*H elements and is viewed as
(D, max_segments, max_segment_length, H). -/
def reshapeBackCheck (maxS maxT H D S T : ℕ) : Except String Unit :=
  viewCheck (D * S * T * H) [D, maxS, maxT, H]

/-! ## Helper lemmas -/

/-- Flat row d*S + s of the row-major flattening is segment s of document d. -/
theorem flatten3_row {α : Type} {D S T : ℕ} (x : Fin D → Fin S → Fin T → α)
    (d : Fin D) (s : Fin S) (hr : d.val * S + s.val < D * S) :
    flatten3 x ⟨d.val * S + s.val, hr⟩ = x d s := by
  funext t
  have hS : 0 < S := Nat.lt_of_le_of_lt (Nat.zero_le _) s.isLt
  have h1 : (d.val * S + s.val) / S = d.val := by
    rw [Nat.mul_comm d.val S, Nat.mul_add_div hS, Nat.div_eq_of_lt s.isLt, Nat.add_zero]
  have h2 : (d.val * S + s.val) % S = s.val := by
    rw [Nat.mul_comm d.val S, Nat.mul_add_mod, Nat.mod_eq_of_lt s.isLt]
  simp only [flatten3, h1, h2, Fin.eta]

/-- The (D, S, H) tensor of segment summaries built by forward's
flatten / encode / reshape / token-0 steps holds, at slot (d, s), the
base encoder's token-0 output for exactly the rows of segment s of
document d. -/
theorem clsSummaries_apply (D S T H : ℕ) (hT : 0 < T)
    (encoder : (Fin T → ℤ) → (Fin T → ℤ) → (Fin T → ℤ) → Fin T → Fin H → ℝ)
    (input_ids attention_mask token_type_ids : Fin D → Fin S → Fin T → ℤ)
    (d : Fin D) (s : Fin S) (h : Fin H) :
    clsSummaries D S T H hT encoder input_ids attention_mask token_type_ids d s h =
      encoder (input_ids d s) (attention_mask d s) (token_type_ids d s) ⟨0, hT⟩ h := by
  simp only [clsSummaries, unflatten4]
  rw [flatten3_row input_ids, flatten3_row attention_mask, flatten3_row token_type_ids]

/-- Row 0 of the sinusoidal table is the zero vector. -/
theorem sinusoidal_row_zero (R dim i : ℕ) : sinusoidal_init R dim 0 i = 0 := by
  rw [sinusoidal_init, if_neg (by omega), if_neg (by omega), position_enc,
    if_neg (by omega)]

/-! ## Claims about the flatten/encode/reshape cycle -/

/-- Claim C1: for every rank-3 input batch, flattening row-major (segment s
of document d to flat row d*segments + s), encoding each flat row, reshaping
back to (documents, segments, tokens, hidden) and extracting token position 0
is order-preserving: slot (d, s) of the resulting (documents, segments,
hidden) tensor holds exactly the summary of segment s of document d. Proven
for an arbitrary per-row base encoder, which subsumes the identity stand-in
of the spec's test. -/
theorem claim1_flatten_reshape_order (D S T H : ℕ) (hT : 0 < T)
    (encoder : (Fin T → ℤ) → (Fin T → ℤ) → (Fin T → ℤ) → Fin T → Fin H → ℝ)
    (input_ids attention_mask token_type_ids : Fin D → Fin S → Fin T → ℤ)
    (d : Fin D) (s : Fin S) (h : Fin H) :
    clsSummaries D S T H hT encoder input_ids attention_mask token_type_ids d s h =
      encoder (input_ids d s) (attention_mask d s) (token_type_ids d s) ⟨0, hT⟩ h :=
  clsSummaries_apply D S T H hT encoder input_ids attention_mask token_type_ids d s h

/-- Witness for C1 at D = 1, S = 2, T = 1, H = 1 with an identity-like
stand-in encoder that returns the token ids as the hidden states. -/
theorem claim1_witness :
    (0 : ℕ) < 1 ∧
    clsSummaries 1 2 1 1 Nat.one_pos (fun ids _ _ t _ => ((ids t : ℤ) : ℝ))
        (fun _ s _ => (s.val : ℤ)) (fun _ _ _ => 1) (fun _ _ _ => 0)
        ⟨0, Nat.one_pos⟩ ⟨1, Nat.one_lt_two⟩ ⟨0, Nat.one_pos⟩ =
      (((fun (_ : Fin 1) (s : Fin 2) (_ : Fin 1) => (s.val : ℤ)) ⟨0, Nat.one_pos⟩
          ⟨1, Nat.one_lt_two⟩ ⟨0, Nat.one_pos⟩ : ℤ) : ℝ) :=
  ⟨Nat.one_pos,
    claim1_flatten_reshape_order 1 2 1 1 Nat.one_pos
      (fun ids _ _ t _ => ((ids t : ℤ) : ℝ))
      (fun _ s _ => (s.val : ℤ)) (fun _ _ _ => 1) (fun _ _ _ => 0)
      ⟨0, Nat.one_pos⟩ ⟨1, Nat.one_lt_two⟩ ⟨0, Nat.one_pos⟩⟩

/-- Claim C2: in the transformer variant, for a document whose last k
segments are all-zero and whose earlier segments have non-zero token-id
sum, the segment-position index vector assigns 0 to exactly the k trailing
segments (and the looked-up row of the construction-time positional table
is then the zero row 0), and assigns the strictly increasing indices
1..(S-k) — index s+1 to 0-based segment s — to the non-padding segments in
original order. -/
theorem claim2_seg_position_mask (S T H k : ℕ) (hk : k ≤ S)
    (input_ids : Fin S → Fin T → ℤ)
    (hpad : ∀ s : Fin S, S - k ≤ s.val → ∀ t, input_ids s t = 0)
    (hreal : ∀ s : Fin S, s.val < S - k → (∑ t, input_ids s t) ≠ 0) :
    ∀ s : Fin S,
      (S - k ≤ s.val → seg_positions input_ids s = 0 ∧
        ∀ h : Fin H, sinusoidal_init (S + 1) H (seg_positions input_ids s) h.val = 0) ∧
      (s.val < S - k → seg_positions input_ids s = s.val + 1) := by
  intro s
  constructor
  · intro hge
    have hsum : (∑ t, input_ids s t) = 0 :=
      Finset.sum_eq_zero fun t _ => hpad s hge t
    have hm : seg_mask input_ids s = 0 := by
      rw [seg_mask, if_neg (not_not_intro hsum)]
    have hp : seg_positions input_ids s = 0 := by
      rw [seg_positions, hm, Nat.mul_zero]
    exact ⟨hp, fun h => by rw [hp]; exact sinusoidal_row_zero (S + 1) H h.val⟩
  · intro hlt
    have hm : seg_mask input_ids s = 1 := by
      rw [seg_mask, if_pos (hreal s hlt)]
    rw [seg_positions, hm, Nat.mul_one]

/-- Witness for C2: S = 3, T = 1, H = 2, k = 1, token ids 1, 2 on the two
leading segments and 0 on the trailing one. -/
theorem claim2_witness :
    (1 : ℕ) ≤ 3 ∧
    (∀ s : Fin 3,
      (3 - 1 ≤ s.val →
        seg_positions (fun (s : Fin 3) (_ : Fin 1) =>
          if s.val = 2 then (0 : ℤ) else s.val + 1) s = 0 ∧
        ∀ h : Fin 2, sinusoidal_init 4 2
          (seg_positions (fun (s : Fin 3) (_ : Fin 1) =>
            if s.val = 2 then (0 : ℤ) else s.val + 1) s) h.val = 0) ∧
      (s.val < 3 - 1 →
        seg_positions (fun (s : Fin 3) (_ : Fin 1) =>
          if s.val = 2 then (0 : ℤ) else s.val + 1) s = s.val + 1)) :=
  ⟨by omega,
    claim2_seg_position_mask 3 1 2 1 (by omega)
      (fun (s : Fin 3) (_ : Fin 1) => if s.val = 2 then (0 : ℤ) else s.val + 1)
      (by decide) (by decide)⟩

/-! ## Claim about the sinusoidal table builder -/

/-- Claim C3: for row_count ≥ 1 and even dim, the positional table's row 0
is exactly the zero vector, and row p ≥ 1 holds sin(p / 10000^(2i/dim)) at
every even column index i and cos(p / 10000^(2i/dim)) at every odd column
index i. The float64-then-float32 pipeline is modelled over ℝ, and the
builder is a pure function of its arguments by construction. -/
theorem claim3_sinusoidal_table (R dim : ℕ) (hR : 1 ≤ R) (hdim : dim % 2 = 0) :
    (∀ i, sinusoidal_init R dim 0 i = 0) ∧
    (∀ p i, 1 ≤ p → p < R → i < dim →
      (i % 2 = 0 → sinusoidal_init R dim p i =
        Real.sin ((p : ℝ) / (10000 : ℝ) ^ (2 * (i : ℝ) / (dim : ℝ)))) ∧
      (i % 2 = 1 → sinusoidal_init R dim p i =
        Real.cos ((p : ℝ) / (10000 : ℝ) ^ (2 * (i : ℝ) / (dim : ℝ))))) := by
  refine ⟨fun i => sinusoidal_row_zero R dim i, fun p i hp hpR hi => ⟨fun he => ?_, fun ho => ?_⟩⟩
  · rw [sinusoidal_init, if_pos ⟨hp, he⟩, position_enc, if_pos (by omega)]
  · rw [sinusoidal_init, if_neg (by omega), if_pos ⟨hp, ho⟩, position_enc,
      if_pos (by omega)]

/-- Witness for C3 at row_count = 2, dim = 2. -/
theorem claim3_witness :
    (1 : ℕ) ≤ 2 ∧ (2 : ℕ) % 2 = 0 ∧
    ((∀ i, sinusoidal_init 2 2 0 i = 0) ∧
      (∀ p i, 1 ≤ p → p < 2 → i < 2 →
        (i % 2 = 0 → sinusoidal_init 2 2 p i =
          Real.sin ((p : ℝ) / (10000 : ℝ) ^ (2 * (i : ℝ) / (2 : ℕ)))) ∧
        (i % 2 = 1 → sinusoidal_init 2 2 p i =
          Real.cos ((p : ℝ) / (10000 : ℝ) ^ (2 * (i : ℝ) / (2 : ℕ)))))) :=
  ⟨by omega, by omega, claim3_sinusoidal_table 2 2 (by omega) rfl⟩

/-! ## Claim about construction-time validation -/

/-- Claim C5: constructing the hierarchical encoder fails immediately
(the assert of line 36, before any forward call) exactly when the base
encoder's declared model family is outside
{bert, camembert, xlm-roberta, roberta}; for families inside the set the
construction raises no error. -/
theorem claim5_model_family_assert (S T H : ℕ) (cfg : EncoderConfig)
    (encoder : (Fin T → ℤ) → (Fin T → ℤ) → (Fin T → ℤ) → Fin T → Fin H → ℝ)
    (lstm_prim : (Fin S → Fin H → ℝ) → Fin S → Fin (2 * H) → ℝ)
    (down_project_prim : LinearModule (2 * H) H)
    (transformer_prim : (Fin S → Fin H → ℝ) → Fin S → Fin H → ℝ)
    (ty : String) :
    (cfg.model_type ∉ supported_models →
      hierarchicalBertInit S T H cfg encoder lstm_prim down_project_prim
        transformer_prim ty = Except.error "AssertionError") ∧
    (cfg.model_type ∈ supported_models →
      ∃ m, hierarchicalBertInit S T H cfg encoder lstm_prim down_project_prim
        transformer_prim ty = Except.ok m) := by
  constructor
  · intro hn
    rw [hierarchicalBertInit, if_neg hn]
  · intro hy
    rw [hierarchicalBertInit, if_pos hy]
    exact ⟨_, rfl⟩

/-- Witness for C5: a "gpt2" base encoder is rejected at construction, a
"bert" one is accepted. -/
theorem claim5_witness :
    (EncoderConfig.mk "gpt2" 1 1 1 "gelu" 0 0).model_type ∉ supported_models ∧
    hierarchicalBertInit 1 1 1 (EncoderConfig.mk "gpt2" 1 1 1 "gelu" 0 0)
      (fun _ _ _ _ _ => 0) (fun _ _ _ => 0) ⟨fun _ _ => 0, fun _ => 0⟩
      (fun _ _ _ => 0) "transformer" = Except.error "AssertionError" ∧
    ∃ m, hierarchicalBertInit 1 1 1 (EncoderConfig.mk "bert" 1 1 1 "gelu" 0 0)
      (fun _ _ _ _ _ => 0) (fun _ _ _ => 0) ⟨fun _ _ => 0, fun _ => 0⟩
      (fun _ _ _ => 0) "transformer" = Except.ok m :=
  ⟨by decide,
    (claim5_model_family_assert 1 1 1 (EncoderConfig.mk "gpt2" 1 1 1 "gelu" 0 0)
      (fun _ _ _ _ _ => 0) (fun _ _ _ => 0) ⟨fun _ _ => 0, fun _ => 0⟩
      (fun _ _ _ => 0) "transformer").1 (by decide),
    (claim5_model_family_assert 1 1 1 (EncoderConfig.mk "bert" 1 1 1 "gelu" 0 0)
      (fun _ _ _ _ _ => 0) (fun _ _ _ => 0) ⟨fun _ _ => 0, fun _ => 0⟩
      (fun _ _ _ => 0) "transformer").2 (by decide)⟩

/-! ## Claims about the reshape step on mismatching inputs -/

/-- Claim C7 is refuted: an input of actual shape (1, 2, 3) against
configured maxima (3, 2) with hidden width 1 has a mismatching segment
count (2 ≠ 3) and token count (3 ≠ 2), yet the reshape/view step of lines
92-93 succeeds, because `view` only compares total element counts. -/
theorem claim7_counterexample :
    ((2 : ℕ) ≠ 3 ∨ (3 : ℕ) ≠ 2) ∧
    reshapeBackCheck 3 2 1 1 2 3 = Except.ok () :=
  ⟨Or.inl (by omega), rfl⟩

/-- Claim C7 as amended: for a positive batch size and hidden width, the
reshape/view step of lines 92-93 fails with a dimension-mismatch error
exactly when the input's segments × tokens count differs from
max_segments × max_segment_length; inputs whose factor pair merely permutes
the configured product pass the reshape step. -/
theorem claim7_amended (maxS maxT H D S T : ℕ) (hD : 0 < D) (hH : 0 < H) :
    (reshapeBackCheck maxS maxT H D S T = Except.ok () ↔ S * T = maxS * maxT) ∧
    (S * T ≠ maxS * maxT →
      reshapeBackCheck maxS maxT H D S T =
        Except.error "RuntimeError: shape is invalid for input size") := by
  have hDH : 0 < D * H := Nat.mul_pos hD hH
  have key : D * S * T * H = D * (maxS * (maxT * (H * 1))) ↔ S * T = maxS * maxT := by
    rw [Nat.mul_one]
    constructor
    · intro h
      apply Nat.eq_of_mul_eq_mul_right hDH
      calc S * T * (D * H) = D * S * T * H := by ring
        _ = D * (maxS * (maxT * H)) := h
        _ = maxS * maxT * (D * H) := by ring
    · intro h
      calc D * S * T * H = S * T * (D * H) := by ring
        _ = maxS * maxT * (D * H) := by rw [h]
        _ = D * (maxS * (maxT * H)) := by ring
  rw [reshapeBackCheck, viewCheck]
  simp only [List.foldr]
  by_cases hc : S * T = maxS * maxT
  · rw [if_pos (key.mpr hc)]
    exact ⟨⟨fun _ => hc, fun _ => rfl⟩, fun hne => absurd hc hne⟩
  · rw [if_neg (fun hcontra => hc (key.mp hcontra))]
    exact ⟨⟨fun hok => absurd hok (by simp), fun heq => absurd heq hc⟩, fun _ => rfl⟩

/-- Witness for C7 as amended, at the counterexample's sizes. -/
theorem claim7_witness :
    (0 : ℕ) < 1 ∧
    ((reshapeBackCheck 3 2 1 1 2 3 = Except.ok () ↔ 2 * 3 = 3 * 2) ∧
      ((2 : ℕ) * 3 ≠ 3 * 2 →
        reshapeBackCheck 3 2 1 1 2 3 =
          Except.error "RuntimeError: shape is invalid for input size")) :=
  ⟨Nat.one_pos, claim7_amended 3 2 1 1 2 3 Nat.one_pos Nat.one_pos⟩

/-! ## Claims about the forward pass -/

/-- Spec-side definition (refinement target for C6): the standard
bidirectional "last state" convention — the final-timestep
forward-direction hidden state (the first H components of the BiLSTM
output at timestep S-1) concatenated with the first-timestep
backward-direction hidden state (the last H components of the output at
timestep 0), as a single 2*H-wide vector. -/
def bidirLastState (S H : ℕ) (hS : 0 < S) (out : Fin S → Fin (2 * H) → ℝ)
    (c : Fin (2 * H)) : ℝ :=
  if c.val < H then out ⟨S - 1, by omega⟩ c else out ⟨0, hS⟩ c

/-- The code's view/concatenate index arithmetic of lines 103-109 computes
exactly the down-projection of the bidirectional last state. -/
theorem lstmBranch_apply (D S H : ℕ) (hS : 0 < S)
    (f : (Fin S → Fin H → ℝ) → Fin S → Fin (2 * H) → ℝ)
    (dp : LinearModule (2 * H) H) (eo : Fin D → Fin S → Fin H → ℝ)
    (d : Fin D) (o : Fin H) :
    lstmBranch D S H hS f dp eo d o =
      dp.apply (bidirLastState S H hS (f (eo d))) o := by
  simp only [lstmBranch]
  refine congrArg (fun v => dp.apply v o) (funext fun c => ?_)
  by_cases hc : c.val < H
  · rw [dif_pos hc, bidirLastState, if_pos hc]
    congr 1
    apply Fin.ext
    show 0 * H + c.val = c.val
    omega
  · rw [dif_neg hc, bidirLastState, if_neg hc]
    congr 1
    apply Fin.ext
    show 1 * H + (c.val - H) = c.val
    have := c.isLt
    omega

/-- Claim C4: for inputs matching the configured shapes and for both
segment-encoder variants, forward returns a record whose primary pooled
representation has shape (documents, hidden) — carried here by the type
Fin D → Fin H → ℝ — with the same pooled tensor duplicated into the
hidden-states field and with past_key_values, attentions and
cross_attentions left unset. -/
theorem claim4_output_record (S T H : ℕ) (m : HierarchicalBert S T H) (D : ℕ)
    (hS : 0 < S) (hT : 0 < T)
    (hvar :
      (m.seg_encoder_type = "lstm" ∧
        (∃ f, m.seg_encoder = some (SegModule.lstm f)) ∧
        ∃ dp, m.down_project = some dp) ∨
      (m.seg_encoder_type = "transformer" ∧
        (∃ g, m.seg_encoder = some (SegModule.transformer g)) ∧
        ∃ emb, m.seg_pos_embeddings = some emb))
    (input_ids attention_mask token_type_ids : Fin D → Fin S → Fin T → ℤ) :
    ∃ pooled : Fin D → Fin H → ℝ,
      (HierarchicalBert.forward S T H m D hS hT input_ids attention_mask
          token_type_ids).2.2 =
        Except.ok ⟨pooled, none, some pooled, none, none⟩ := by
  rcases hvar with ⟨hty, ⟨f, hseg⟩, dp, hdp⟩ | ⟨hty, ⟨g, hseg⟩, emb, hemb⟩
  · refine ⟨lstmBranch D S H hS f dp
      (clsSummaries D S T H hT m.encoder input_ids attention_mask token_type_ids),
      ?_⟩
    simp only [HierarchicalBert.forward, hty, hseg, hdp]
    exact if_pos trivial
  · refine ⟨transformerBranch D S T H hS g emb input_ids
      (clsSummaries D S T H hT m.encoder input_ids attention_mask token_type_ids),
      ?_⟩
    simp only [HierarchicalBert.forward, hty, hseg, hemb]
    rw [if_neg (by decide : ¬("transformer" : String) = "lstm"), if_pos trivial]

/-- Witness for C4 at D = S = T = H = 1 with the LSTM variant. -/
theorem claim4_witness :
    ∃ pooled : Fin 1 → Fin 1 → ℝ,
      (HierarchicalBert.forward 1 1 1
          ⟨EncoderConfig.mk "bert" 1 1 1 "gelu" 0 0, fun _ _ _ _ _ => 0, "lstm",
            some (SegModule.lstm fun _ _ _ => 0), some ⟨fun _ _ => 0, fun _ => 0⟩,
            none⟩
          1 Nat.one_pos Nat.one_pos (fun _ _ _ => 0) (fun _ _ _ => 0)
          (fun _ _ _ => 0)).2.2 =
        Except.ok ⟨pooled, none, some pooled, none, none⟩ :=
  claim4_output_record 1 1 1
    ⟨EncoderConfig.mk "bert" 1 1 1 "gelu" 0 0, fun _ _ _ _ _ => 0, "lstm",
      some (SegModule.lstm fun _ _ _ => 0), some ⟨fun _ _ => 0, fun _ => 0⟩, none⟩
    1 Nat.one_pos Nat.one_pos
    (Or.inl ⟨rfl, ⟨_, rfl⟩, _, rfl⟩)
    (fun _ _ _ => 0) (fun _ _ _ => 0) (fun _ _ _ => 0)

/-- Claim C6: in the LSTM variant the returned document representation
equals the down-projection (2*hidden to hidden) applied to the
concatenation of the BiLSTM's final-timestep forward-direction hidden
state with its first-timestep backward-direction hidden state, where the
BiLSTM runs over the segment-summary sequence (segments as time axis). -/
theorem claim6_lstm_doc_repr (S T H : ℕ) (m : HierarchicalBert S T H) (D : ℕ)
    (hS : 0 < S) (hT : 0 < T)
    (f : (Fin S → Fin H → ℝ) → Fin S → Fin (2 * H) → ℝ)
    (dp : LinearModule (2 * H) H)
    (hty : m.seg_encoder_type = "lstm")
    (hseg : m.seg_encoder = some (SegModule.lstm f))
    (hdp : m.down_project = some dp)
    (input_ids attention_mask token_type_ids : Fin D → Fin S → Fin T → ℤ) :
    ∃ output : SimpleOutput D H,
      (HierarchicalBert.forward S T H m D hS hT input_ids attention_mask
          token_type_ids).2.2 = Except.ok output ∧
      ∀ (d : Fin D) (o : Fin H),
        output.last_hidden_state d o =
          dp.apply (bidirLastState S H hS (f (fun s h =>
            m.encoder (input_ids d s) (attention_mask d s) (token_type_ids d s)
              ⟨0, hT⟩ h))) o := by
  refine ⟨⟨lstmBranch D S H hS f dp
      (clsSummaries D S T H hT m.encoder input_ids attention_mask token_type_ids),
      none,
      some (lstmBranch D S H hS f dp
        (clsSummaries D S T H hT m.encoder input_ids attention_mask token_type_ids)),
      none, none⟩, ?_, ?_⟩
  · simp only [HierarchicalBert.forward, hty, hseg, hdp]
    exact if_pos trivial
  · intro d o
    show lstmBranch D S H hS f dp
        (clsSummaries D S T H hT m.encoder input_ids attention_mask token_type_ids)
        d o = _
    rw [lstmBranch_apply]
    have hrow : clsSummaries D S T H hT m.encoder input_ids attention_mask
        token_type_ids d = fun s h =>
          m.encoder (input_ids d s) (attention_mask d s) (token_type_ids d s)
            ⟨0, hT⟩ h :=
      funext fun s => funext fun h =>
        clsSummaries_apply D S T H hT m.encoder input_ids attention_mask
          token_type_ids d s h
    rw [hrow]

/-- Witness for C6 at D = S = T = H = 1. -/
theorem claim6_witness :
    ∃ output : SimpleOutput 1 1,
      (HierarchicalBert.forward 1 1 1
          ⟨EncoderConfig.mk "bert" 1 1 1 "gelu" 0 0, fun _ _ _ _ _ => 0, "lstm",
            some (SegModule.lstm fun _ _ _ => 0), some ⟨fun _ _ => 0, fun _ => 0⟩,
            none⟩
          1 Nat.one_pos Nat.one_pos (fun _ _ _ => 0) (fun _ _ _ => 0)
          (fun _ _ _ => 0)).2.2 = Except.ok output ∧
      ∀ (d : Fin 1) (o : Fin 1),
        output.last_hidden_state d o =
          LinearModule.apply ⟨fun _ _ => 0, fun _ => 0⟩
            (bidirLastState 1 1 Nat.one_pos (fun _ _ => (0 : ℝ))) o :=
  claim6_lstm_doc_repr 1 1 1
    ⟨EncoderConfig.mk "bert" 1 1 1 "gelu" 0 0, fun _ _ _ _ _ => 0, "lstm",
      some (SegModule.lstm fun _ _ _ => 0), some ⟨fun _ _ => 0, fun _ => 0⟩, none⟩
    1 Nat.one_pos Nat.one_pos (fun _ _ _ => 0) ⟨fun _ _ => 0, fun _ => 0⟩
    rfl rfl rfl (fun _ _ _ => 0) (fun _ _ _ => 0) (fun _ _ _ => 0)

/-- Claim C8 is refuted in its "fixed (non-learned) / excluded from the
learned parameters" part: the positional table is stored in an
nn.Embedding constructed with `_weight=` (lines 54-56), whose weight is a
trainable parameter — requires_grad is true; `padding_idx=0` only pins row
0's gradient. Shown on a concrete transformer-variant construction. -/
theorem claim8_counterexample :
    ∃ m : HierarchicalBert 1 1 1,
      hierarchicalBertInit 1 1 1 (EncoderConfig.mk "bert" 1 1 1 "gelu" 0 0)
        (fun _ _ _ _ _ => 0) (fun _ _ _ => 0) ⟨fun _ _ => 0, fun _ => 0⟩
        (fun _ _ _ => 0) "transformer" = Except.ok m ∧
      ∃ e, m.seg_pos_embeddings = some e ∧ e.requires_grad = true := by
  refine ⟨_, rfl, _, rfl, rfl⟩

/-- Claim C8 as amended: the segment position table is computed once at
construction (seeded from `sinusoidal_init(max_segments + 1, hidden)`), a
forward pass mutates nothing on the module, but the table is NOT excluded
from the learned parameters: it is a trainable embedding weight
(requires_grad true), with only the padding row's gradient pinned via
padding_idx = 0. -/
theorem claim8_amended (S T H : ℕ) (cfg : EncoderConfig)
    (encoder : (Fin T → ℤ) → (Fin T → ℤ) → (Fin T → ℤ) → Fin T → Fin H → ℝ)
    (lstm_prim : (Fin S → Fin H → ℝ) → Fin S → Fin (2 * H) → ℝ)
    (down_project_prim : LinearModule (2 * H) H)
    (transformer_prim : (Fin S → Fin H → ℝ) → Fin S → Fin H → ℝ)
    (m : HierarchicalBert S T H)
    (hinit : hierarchicalBertInit S T H cfg encoder lstm_prim down_project_prim
      transformer_prim "transformer" = Except.ok m) :
    m.seg_pos_embeddings = some (nnEmbedding (S + 1) (some 0)
      (fun p h => sinusoidal_init (S + 1) H p h.val)) ∧
    (∀ e, m.seg_pos_embeddings = some e → e.requires_grad = true) ∧
    (∀ (D : ℕ) (hS : 0 < S) (hT : 0 < T)
      (input_ids attention_mask token_type_ids : Fin D → Fin S → Fin T → ℤ),
      (HierarchicalBert.forward S T H m D hS hT input_ids attention_mask
        token_type_ids).1 = m) := by
  rw [hierarchicalBertInit] at hinit
  by_cases hmem : cfg.model_type ∈ supported_models
  · rw [if_pos hmem, if_neg (show ¬("transformer" : String) = "lstm" by decide),
      if_pos (show ("transformer" : String) = "transformer" from rfl)] at hinit
    injection hinit with hm
    subst hm
    refine ⟨rfl, ?_, ?_⟩
    · intro e he
      have he2 : some (nnEmbedding (S + 1) (some 0)
          (fun p h => sinusoidal_init (S + 1) H p h.val)) = some e := he
      injection he2 with he3
      rw [← he3]
      rfl
    · intro D hS hT input_ids attention_mask token_type_ids
      rfl
  · rw [if_neg hmem] at hinit
    simp at hinit

/-- Witness for C8 as amended, at the counterexample's construction. -/
theorem claim8_witness :
    ((⟨EncoderConfig.mk "bert" 1 1 1 "gelu" 0 0, fun _ _ _ _ _ => 0,
          "transformer", some (SegModule.transformer fun _ _ _ => 0), none,
          some (nnEmbedding 2 (some 0) (fun p h => sinusoidal_init 2 1 p h.val))⟩ :
        HierarchicalBert 1 1 1).seg_pos_embeddings =
      some (nnEmbedding 2 (some 0) (fun p h => sinusoidal_init 2 1 p h.val))) ∧
    (∀ e, (⟨EncoderConfig.mk "bert" 1 1 1 "gelu" 0 0, fun _ _ _ _ _ => 0,
          "transformer", some (SegModule.transformer fun _ _ _ => 0), none,
          some (nnEmbedding 2 (some 0) (fun p h => sinusoidal_init 2 1 p h.val))⟩ :
        HierarchicalBert 1 1 1).seg_pos_embeddings =
        some e → e.requires_grad = true) ∧
    (∀ (D : ℕ) (hS : (0 : ℕ) < 1) (hT : (0 : ℕ) < 1)
      (input_ids attention_mask token_type_ids : Fin D → Fin 1 → Fin 1 → ℤ),
      (HierarchicalBert.forward 1 1 1
        ⟨EncoderConfig.mk "bert" 1 1 1 "gelu" 0 0, fun _ _ _ _ _ => 0,
          "transformer", some (SegModule.transformer fun _ _ _ => 0), none,
          some (nnEmbedding 2 (some 0) (fun p h => sinusoidal_init 2 1 p h.val))⟩
        D hS hT input_ids attention_mask token_type_ids).1 =
      ⟨EncoderConfig.mk "bert" 1 1 1 "gelu" 0 0, fun _ _ _ _ _ => 0,
        "transformer", some (SegModule.transformer fun _ _ _ => 0), none,
        some (nnEmbedding 2 (some 0) (fun p h => sinusoidal_init 2 1 p h.val))⟩) :=
  claim8_amended 1 1 1 (EncoderConfig.mk "bert" 1 1 1 "gelu" 0 0)
    (fun _ _ _ _ _ => 0) (fun _ _ _ => 0) ⟨fun _ _ => 0, fun _ => 0⟩
    (fun _ _ _ => 0)
    ⟨EncoderConfig.mk "bert" 1 1 1 "gelu" 0 0, fun _ _ _ _ _ => 0,
      "transformer", some (SegModule.transformer fun _ _ _ => 0), none,
      some (nnEmbedding 2 (some 0) (fun p h => sinusoidal_init 2 1 p h.val))⟩
    (by rw [hierarchicalBertInit, if_pos (by decide)]; rfl)

/-- Claim C9: for any segment-encoder selector other than "lstm" and
"transformer", construction succeeds (raising no error) and attaches no
segment-encoder sub-module; a forward call on such an instance invokes the
base encoder over the whole flattened batch of D*S rows and only then
fails with an unbound-local failure on `outputs` — not a configuration
error. -/
theorem claim9_unknown_variant (S T H : ℕ) (cfg : EncoderConfig)
    (encoder : (Fin T → ℤ) → (Fin T → ℤ) → (Fin T → ℤ) → Fin T → Fin H → ℝ)
    (lstm_prim : (Fin S → Fin H → ℝ) → Fin S → Fin (2 * H) → ℝ)
    (down_project_prim : LinearModule (2 * H) H)
    (transformer_prim : (Fin S → Fin H → ℝ) → Fin S → Fin H → ℝ)
    (ty : String) (hmem : cfg.model_type ∈ supported_models)
    (h1 : ty ≠ "lstm") (h2 : ty ≠ "transformer") :
    ∃ m : HierarchicalBert S T H,
      hierarchicalBertInit S T H cfg encoder lstm_prim down_project_prim
        transformer_prim ty = Except.ok m ∧
      m.seg_encoder = none ∧ m.down_project = none ∧
      m.seg_pos_embeddings = none ∧
      ∀ (D : ℕ) (hS : 0 < S) (hT : 0 < T)
        (input_ids attention_mask token_type_ids : Fin D → Fin S → Fin T → ℤ),
        HierarchicalBert.forward S T H m D hS hT input_ids attention_mask
            token_type_ids =
          (m, [FwdEvent.encoderInvoked (D * S)],
            Except.error (PyError.unboundLocal "outputs")) := by
  refine ⟨_, by rw [hierarchicalBertInit, if_pos hmem], ?_, ?_, ?_, ?_⟩
  · show (if ty = "lstm" then some (SegModule.lstm lstm_prim)
      else if ty = "transformer" then some (SegModule.transformer transformer_prim)
      else none) = none
    rw [if_neg h1, if_neg h2]
  · show (if ty = "lstm" then some down_project_prim else none) = none
    rw [if_neg h1]
  · show (if ty = "transformer" then some (nnEmbedding (S + 1) (some 0)
      (fun p h => sinusoidal_init (S + 1) H p h.val)) else none) = none
    rw [if_neg h2]
  · intro D hS hT input_ids attention_mask token_type_ids
    simp only [HierarchicalBert.forward, if_neg h1, if_neg h2]

/-- Witness for C9 with selector "gru" on a "bert" base encoder. -/
theorem claim9_witness :
    ∃ m : HierarchicalBert 1 1 1,
      hierarchicalBertInit 1 1 1 (EncoderConfig.mk "bert" 1 1 1 "gelu" 0 0)
        (fun _ _ _ _ _ => 0) (fun _ _ _ => 0) ⟨fun _ _ => 0, fun _ => 0⟩
        (fun _ _ _ => 0) "gru" = Except.ok m ∧
      m.seg_encoder = none ∧ m.down_project = none ∧
      m.seg_pos_embeddings = none ∧
      ∀ (D : ℕ) (hS : (0 : ℕ) < 1) (hT : (0 : ℕ) < 1)
        (input_ids attention_mask token_type_ids : Fin D → Fin 1 → Fin 1 → ℤ),
        HierarchicalBert.forward 1 1 1 m D hS hT input_ids attention_mask
            token_type_ids =
          (m, [FwdEvent.encoderInvoked (D * 1)],
            Except.error (PyError.unboundLocal "outputs")) :=
  claim9_unknown_variant 1 1 1 (EncoderConfig.mk "bert" 1 1 1 "gelu" 0 0)
    (fun _ _ _ _ _ => 0) (fun _ _ _ => 0) ⟨fun _ _ => 0, fun _ => 0⟩
    (fun _ _ _ => 0) "gru" (by decide) (by decide) (by decide)

/-! ## Claims about the experiment grid -/

/-- Claim C10 is refuted: "camembert/camembert-base-ccnet" is one of the
base-model identifiers of the generator, "de" a language code and
"standard" a type label, yet no row pairs them — the generator only pairs
each language with its own per-language model list, not with the full
fixed identifier set. -/
theorem claim10_counterexample :
    "camembert/camembert-base-ccnet" ∈ all_model_names ∧
    "de" ∈ languages ∧ "standard" ∈ types ∧
    countRows "camembert/camembert-base-ccnet" "standard" "de" = 0 := by
  refine ⟨by decide, by decide, by decide, by decide⟩

/-- Claim C10 as amended: the generator produces rows with exactly the
columns {model_name, type, lang, status}; for every language code, every
architecture-type label and every base-model identifier in that language's
model list there is exactly one row (24 rows in total, status empty), and
every produced row is of that form. -/
theorem claim10_amended :
    (∀ lg ∈ languages, ∀ ty ∈ types, ∀ mn ∈ model_names lg, countRows mn ty lg = 1) ∧
    (∀ e ∈ train_experiments, e.lang ∈ languages ∧ e.type ∈ types ∧
      e.model_name ∈ model_names e.lang ∧ e.status = "") ∧
    train_experiments.length = 24 ∧
    csv_columns = ["model_name", "type", "lang", "status"] := by
  refine ⟨by decide, by decide, by decide, rfl⟩

/-- Witness for C10 as amended at one concrete grid cell. -/
theorem claim10_witness : countRows "deepset/gbert-base" "hierarchical" "de" = 1 :=
  claim10_amended.1 "de" (by decide) "hierarchical" (by decide)
    "deepset/gbert-base" (by decide)

end SJP
